import Mathlib

/-!
Verification of the binary trajectory-log decoder in `tlog2csv.py`.

The script decodes a Varian TrueBeam trajectory log from an in-memory byte
buffer using a module-global `cursor` and one helper `decode_binary`
(dispatching on a requested data type), then partitions the snapshot block
into per-axis expected/actual sequences by extended slicing
`snapshot_data[offset::step_size]`.

The shallow embedding below models the buffer as a `List Nat` of bytes,
the cursor as an `Int` threaded explicitly, Python exceptions as an error
type `PyErr`, and IEEE-754 float32 payload values as their raw little-endian
32-bit words (the decoder never performs arithmetic on them, it only moves
them around, so the bit pattern is a faithful representation).
-/

set_option maxRecDepth 8000

/-- Python index adjustment for slice bounds: a negative index counts from the
end of the sequence, and indices are clamped into `[0, len]`. -/
def pyIdx (len : Nat) (i : Int) : Nat :=
  if i < 0 then (Int.ofNat len + i).toNat else min i.toNat len

/-- Models the CPython slice `l[start:stop]` (step 1): bounds adjusted by
`pyIdx`, empty when the adjusted stop does not exceed the adjusted start.
A slice never fails and never reads out of bounds. -/
def pySlice (l : List α) (start stop : Int) : List α :=
  (l.drop (pyIdx l.length start)).take (pyIdx l.length stop - pyIdx l.length start)

/-- A UTF-8 continuation byte, `0x80..0xBF`. -/
def isCont (b : Nat) : Bool := 0x80 ≤ b && b ≤ 0xBF

/-- Models strict UTF-8 decoding as performed by Python `bytes.decode()`:
rejects stray continuation bytes, overlong encodings, surrogate code points
and values above `U+10FFFF`; returns the decoded code points as characters. -/
def utf8Decode : List Nat → Option (List Char)
  | [] => some []
  | b :: rest =>
    if b ≤ 0x7F then
      match utf8Decode rest with
      | some cs => some (Char.ofNat b :: cs)
      | none => none
    else if b < 0xC2 then none
    else if b ≤ 0xDF then
      match rest with
      | b1 :: r =>
        if isCont b1 then
          match utf8Decode r with
          | some cs => some (Char.ofNat ((b - 0xC0) * 0x40 + (b1 - 0x80)) :: cs)
          | none => none
        else none
      | [] => none
    else if b ≤ 0xEF then
      match rest with
      | b1 :: b2 :: r =>
        if (if b = 0xE0 then 0xA0 ≤ b1 && b1 ≤ 0xBF
            else if b = 0xED then 0x80 ≤ b1 && b1 ≤ 0x9F
            else isCont b1) && isCont b2 then
          match utf8Decode r with
          | some cs =>
            some (Char.ofNat ((b - 0xE0) * 0x1000 + (b1 - 0x80) * 0x40 + (b2 - 0x80)) :: cs)
          | none => none
        else none
      | _ => none
    else if b ≤ 0xF4 then
      match rest with
      | b1 :: b2 :: b3 :: r =>
        if (if b = 0xF0 then 0x90 ≤ b1 && b1 ≤ 0xBF
            else if b = 0xF4 then 0x80 ≤ b1 && b1 ≤ 0x8F
            else isCont b1) && isCont b2 && isCont b3 then
          match utf8Decode r with
          | some cs =>
            some (Char.ofNat ((b - 0xF0) * 0x40000 + (b1 - 0x80) * 0x1000 +
                              (b2 - 0x80) * 0x40 + (b3 - 0x80)) :: cs)
          | none => none
        else none
      | _ => none
    else none

/-- Models Python `str.strip(chr(0))`: removes null characters from both ends
of the string (the source uses this to drop the null padding of fixed-width
text fields). -/
def stripNulls (cs : List Char) : List Char :=
  ((cs.dropWhile (fun c => c = Char.ofNat 0)).reverse.dropWhile
    (fun c => c = Char.ofNat 0)).reverse

/-- An ASCII decimal digit. -/
def isAsciiDigit (c : Char) : Bool := '0' ≤ c && c ≤ '9'

/-- Whitespace stripped by Python `float()` before parsing. -/
def isPyWs (c : Char) : Bool :=
  c = ' ' || c = Char.ofNat 9 || c = Char.ofNat 10 || c = Char.ofNat 13 ||
  c = Char.ofNat 11 || c = Char.ofNat 12

/-- Consumes the tail of a digit run: further digits, with single underscores
allowed between digits (Python numeric-literal grammar). Returns the
unconsumed remainder. -/
def digitTail : List Char → List Char
  | '_' :: c :: rest => if isAsciiDigit c then digitTail rest else '_' :: c :: rest
  | c :: rest => if isAsciiDigit c then digitTail rest else c :: rest
  | [] => []

/-- Consumes one digit run (at least one digit, single underscores allowed
between digits); `none` when the input does not start with a digit. -/
def digitRun : List Char → Option (List Char)
  | c :: rest => if isAsciiDigit c then some (digitTail rest) else none
  | [] => none

/-- Strips one optional leading sign. -/
def stripSign1 : List Char → List Char
  | '+' :: r => r
  | '-' :: r => r
  | l => l

/-- The optional exponent part of a Python float literal: empty, or
`e`/`E`, an optional sign and a digit run consuming the whole rest. -/
def expPart : List Char → Bool
  | [] => true
  | c :: rest =>
    if c = 'e' || c = 'E' then
      match digitRun (stripSign1 rest) with
      | some [] => true
      | _ => false
    else false

/-- The numeric body of a Python float literal after the optional sign:
`digits [ . [digits] ] [exp]` or `. digits [exp]`. -/
def floatBody (s : List Char) : Bool :=
  match digitRun s with
  | some rest =>
    match rest with
    | '.' :: r2 =>
      (match digitRun r2 with
       | some r3 => expPart r3
       | none => expPart r2)
    | _ => expPart rest
  | none =>
    match s with
    | '.' :: r2 =>
      (match digitRun r2 with
       | some r3 => expPart r3
       | none => false)
    | _ => false

/-- Case-insensitive `inf`, `infinity` or `nan`. -/
def isInfNan (s : List Char) : Bool :=
  let lc := s.map Char.toLower
  lc = ['i', 'n', 'f'] || lc = ['i', 'n', 'f', 'i', 'n', 'i', 't', 'y'] ||
  lc = ['n', 'a', 'n']

/-- Models acceptance by CPython `float(str)` on its documented literal
grammar: surrounding whitespace, one optional sign, then either an
inf/nan word or a decimal literal with optional fraction and exponent,
with single underscores allowed between digits.  The source parses the
version text with `float(...)`; the decoded value itself is kept as the
accepted text (no claim inspects the numeric value). -/
def pyFloatAccepts (s : String) : Bool :=
  let t := ((s.data.dropWhile isPyWs).reverse.dropWhile isPyWs).reverse
  let t := stripSign1 t
  isInfNan t || floatBody t

/-- Little-endian signed 32-bit integer from four bytes, as `struct.unpack`
with format character `i` produces. -/
def toInt32 (bs : List Nat) : Int :=
  match bs with
  | [b0, b1, b2, b3] =>
    let w := b0 + 256 * b1 + 65536 * b2 + 16777216 * b3
    if w < 2147483648 then (w : Int) else (w : Int) - 4294967296
  | _ => 0

/-- Little-endian 32-bit word from four bytes: the raw bit pattern of one
float32 produced by `struct.unpack` with format character `f`.  The decoder
never computes with float values, so the word faithfully stands for the
float. -/
def toWord32 (bs : List Nat) : Nat :=
  match bs with
  | [b0, b1, b2, b3] => b0 + 256 * b1 + 65536 * b2 + 16777216 * b3
  | _ => 0

/-- Splits a byte list into consecutive 4-byte groups, dropping a trailing
incomplete group (unpack sizes are checked before this is used). -/
def chunk4 : List Nat → List (List Nat)
  | b0 :: b1 :: b2 :: b3 :: r => [b0, b1, b2, b3] :: chunk4 r
  | _ => []

/-- The requested data type argument of `decode_binary`: the source
dispatches on `str`, `int` and `float`; `other` stands for any other
value of the `dtype` argument. -/
inductive DType
  | str
  | int
  | float
  | other
deriving DecidableEq, Repr

/-- Kinds of Python exceptions the script can raise while decoding:
`ioError` is the explicit `IOError` re-raised around the signature read,
`unicodeDecodeError` a failing `bytes.decode()`, `valueError` a failing
`float()` or a zero slice step, `typeError` the explicit invalid-dtype
raise or subscripting/iterating a non-sequence, `indexError` indexing an
empty tuple, and `structError` a `struct.unpack` size mismatch. -/
inductive PyErr
  | ioError
  | unicodeDecodeError
  | valueError
  | typeError
  | indexError
  | structError
deriving DecidableEq, Repr

/-- The value returned by `decode_binary`: a string, or an int/float
scalar when exactly one value was requested, or a tuple of values. -/
inductive BinOutput
  | str (s : String)
  | intScalar (v : Int)
  | intTuple (vs : List Int)
  | floatScalar (w : Nat)
  | floatTuple (ws : List Nat)
deriving DecidableEq, Repr

/-- Models `decode_binary(filecontents, dtype, num_values, cursor_shift)`
from the source, with the module-global `cursor` threaded explicitly: the
result pairs the returned value (or the exception raised) with the cursor
value after the call.  For `str` the slice is decoded and null-stripped and
the cursor advances by `num_values` plus the shift; for `int`/`float` the
slice must hold exactly `4*num_values` bytes (`struct.unpack` size check,
else `struct.error`) and a single requested value is returned as a scalar;
any other dtype raises `TypeError`.  An exception leaves the cursor at its
value before the call, since every raise in the source happens before the
cursor assignments. -/
def decode_binary (fc : List Nat) (cursor : Int) (dtype : DType)
    (num_values : Int) (cursor_shift : Int) : Except PyErr BinOutput × Int :=
  match dtype with
  | .str =>
    let raw := pySlice fc cursor (cursor + num_values)
    match utf8Decode raw with
    | none => (.error .unicodeDecodeError, cursor)
    | some cs =>
      (.ok (.str (String.mk (stripNulls cs))), cursor + num_values + cursor_shift)
  | .int =>
    let raw := pySlice fc cursor (cursor + 4 * num_values)
    if raw.length = (4 * num_values).toNat then
      let vals := (chunk4 raw).map toInt32
      if vals.length = 1 then
        (.ok (.intScalar (vals.headD 0)), cursor + 4 * num_values + cursor_shift)
      else
        (.ok (.intTuple vals), cursor + 4 * num_values + cursor_shift)
    else (.error .structError, cursor)
  | .float =>
    let raw := pySlice fc cursor (cursor + 4 * num_values)
    if raw.length = (4 * num_values).toNat then
      let vals := (chunk4 raw).map toWord32
      if vals.length = 1 then
        (.ok (.floatScalar (vals.headD 0)), cursor + 4 * num_values + cursor_shift)
      else
        (.ok (.floatTuple vals), cursor + 4 * num_values + cursor_shift)
    else (.error .structError, cursor)
  | .other => (.error .typeError, cursor)

/-- The header fields read by the script, lines 109-125 of the source,
in read order.  `version` keeps the text accepted by `float(...)`;
`axis_enum` keeps the raw shape returned by `decode_binary` since the
script never subscripts it. -/
structure Header where
  signature : String
  version : String
  header_size : Int
  sampling_interval : Int
  num_axes : Int
  axis_enum : BinOutput
  samples_per_axis : List Int
  num_mlc_leaves : Int
  clinac_scale : Int
  num_subbeams : Int
  is_truncated : Int
  num_snapshots : Int
  mlc_model : Int
deriving DecidableEq, Repr

/-- One axis record, class `Axis` of the source: the expected and actual
per-snapshot sequences (float32 values as raw words). -/
structure Axis where
  expected : List Nat
  actual : List Nat
deriving DecidableEq, Repr

/-- The complete decoded log: the header fields, the flat snapshot block,
the fifteen fixed axes and the MLC leaves (entry `i` of `mlc` is leaf
`i+1` in the script's 1-based CSV labelling).  The field `carraigeA`
keeps the source's spelling. -/
structure TrajectoryLog extends Header where
  snapshot_data : List Nat
  collimator : Axis
  gantry : Axis
  jaw_y1 : Axis
  jaw_y2 : Axis
  jaw_x1 : Axis
  jaw_x2 : Axis
  couch_vrt : Axis
  couch_lng : Axis
  couch_lat : Axis
  couch_rtn : Axis
  mu : Axis
  beam_hold : Axis
  control_point : Axis
  carraigeA : Axis
  carriageB : Axis
  mlc : List Axis
deriving DecidableEq, Repr

/-- Models the CPython extended slice `l[c::k]` for positive step `k`:
the elements at indices `c, c+k, c+2k, ...` that fall inside the list;
their number is the adjusted-length formula used by CPython,
`max(0, ceil((len - c) / k))`. -/
def pyStridePos (l : List α) (c k : Nat) : List α :=
  (List.range ((l.length - c + k - 1) / k)).filterMap (fun j => l[c + j * k]?)

/-- Models the CPython extended slice `l[c::-k]` for positive magnitude `k`
of a negative step: starting from index `c` clamped to `len - 1`, the
elements at indices `s, s-k, s-2k, ...` down to index `0`; empty on an
empty list. -/
def pyStrideNeg (l : List α) (c k : Nat) : List α :=
  if l.length = 0 then []
  else
    let s := min c (l.length - 1)
    (List.range (s / k + 1)).filterMap (fun j => l[s - j * k]?)

/-- Models the CPython extended slice `l[c::step]` for an arbitrary integer
step as evaluated by the script on `snapshot_data`: a zero step raises
`ValueError`, a positive step takes every `step`-th element from `c`, a
negative step walks backwards from `c`. -/
def pyStrideSlice (l : List Nat) (c : Nat) (step : Int) : Except PyErr (List Nat) :=
  if step = 0 then .error .valueError
  else if 0 < step then .ok (pyStridePos l c step.toNat)
  else .ok (pyStrideNeg l c (-step).toNat)

/-- One `Axis(expected=snapshot_data[c::step], actual=snapshot_data[c+1::step])`
construction from the assignment section of the source. -/
def mkAxis (data : List Nat) (c : Nat) (step : Int) : Except PyErr Axis :=
  match pyStrideSlice data c step, pyStrideSlice data (c + 1) step with
  | .ok e, .ok a => .ok ⟨e, a⟩
  | .error err, _ => .error err
  | _, .error err => .error err

/-- The `for leaf in range(num_mlc_leaves)` loop of the source, building one
`Axis` per leaf from columns `30 + 2*leaf` and `31 + 2*leaf`. -/
def mlcAxes (data : List Nat) (step : Int) : List Nat → Except PyErr (List Axis)
  | [] => .ok []
  | leaf :: rest =>
    match mkAxis data (30 + 2 * leaf) step with
    | .error e => .error e
    | .ok ax =>
      match mlcAxes data step rest with
      | .error e => .error e
      | .ok axs => .ok (ax :: axs)

/-- The sub-beam skip, lines 129-131 of the source:
`if num_subbeams: for beam in range(num_subbeams): cursor += 80`.
The loop body runs `max(num_subbeams, 0)` times. -/
def subbeamCursor (c : Int) (num_subbeams : Int) : Int :=
  if num_subbeams ≠ 0 then c + 80 * (num_subbeams.toNat : Int) else c

/-- The header phase of the script, lines 105-125, from cursor `0`: the
signature read wrapped in the bare `try/except` that re-raises any failure
as `IOError`, the version text parsed by `float(...)`, the five scalar and
two per-axis `int32` reads, `num_mlc_leaves = samples_per_axis[-1] - 2`,
the four remaining scalars, and the `mlc_model` read carrying
`cursor_shift = 1024 - (64 + num_axes * 8)`.  Returns the header and the
cursor position after the shift.  Catch-all `typeError` branches stand for
shapes `decode_binary` cannot actually return at those call sites. -/
def decodeHeader (fc : List Nat) : Except PyErr (Header × Int) :=
  match decode_binary fc 0 .str 16 0 with
  | (.error _, _) => .error .ioError
  | (.ok (.str signature), c1) =>
    match decode_binary fc c1 .str 16 0 with
    | (.error e, _) => .error e
    | (.ok (.str vtext), c2) =>
      if pyFloatAccepts vtext then
        match decode_binary fc c2 .int 1 0 with
        | (.error e, _) => .error e
        | (.ok (.intScalar header_size), c3) =>
          match decode_binary fc c3 .int 1 0 with
          | (.error e, _) => .error e
          | (.ok (.intScalar sampling_interval), c4) =>
            match decode_binary fc c4 .int 1 0 with
            | (.error e, _) => .error e
            | (.ok (.intScalar num_axes), c5) =>
              match decode_binary fc c5 .int num_axes 0 with
              | (.error e, _) => .error e
              | (.ok axis_enum, c6) =>
                match decode_binary fc c6 .int num_axes 0 with
                | (.error e, _) => .error e
                | (.ok (.intScalar _), _) => .error .typeError
                | (.ok (.intTuple []), _) => .error .indexError
                | (.ok (.intTuple (s0 :: srest)), c7) =>
                  match decode_binary fc c7 .int 1 0 with
                  | (.error e, _) => .error e
                  | (.ok (.intScalar clinac_scale), c8) =>
                    match decode_binary fc c8 .int 1 0 with
                    | (.error e, _) => .error e
                    | (.ok (.intScalar num_subbeams), c9) =>
                      match decode_binary fc c9 .int 1 0 with
                      | (.error e, _) => .error e
                      | (.ok (.intScalar is_truncated), c10) =>
                        match decode_binary fc c10 .int 1 0 with
                        | (.error e, _) => .error e
                        | (.ok (.intScalar num_snapshots), c11) =>
                          match decode_binary fc c11 .int 1
                              (1024 - (64 + num_axes * 8)) with
                          | (.error e, _) => .error e
                          | (.ok (.intScalar mlc_model), c12) =>
                            .ok ({ signature := signature
                                   version := vtext
                                   header_size := header_size
                                   sampling_interval := sampling_interval
                                   num_axes := num_axes
                                   axis_enum := axis_enum
                                   samples_per_axis := s0 :: srest
                                   num_mlc_leaves :=
                                     (s0 :: srest).getLast (List.cons_ne_nil s0 srest) - 2
                                   clinac_scale := clinac_scale
                                   num_subbeams := num_subbeams
                                   is_truncated := is_truncated
                                   num_snapshots := num_snapshots
                                   mlc_model := mlc_model }, c12)
                          | (.ok _, _) => .error .typeError
                        | (.ok _, _) => .error .typeError
                      | (.ok _, _) => .error .typeError
                    | (.ok _, _) => .error .typeError
                  | (.ok _, _) => .error .typeError
                | (.ok _, _) => .error .typeError
            | (.ok _, _) => .error .typeError
          | (.ok _, _) => .error .typeError
        | (.ok _, _) => .error .typeError
      else .error .valueError
    | (.ok _, _) => .error .typeError
  | (.ok _, _) => .error .ioError

/-- The full decode pass of the script: the header phase, the sub-beam skip,
the single bulk read of `step_size * num_snapshots` float32 values with
`step_size = sum(samples_per_axis) * 2`, and the assignment of every axis by
extended slicing.  Slicing a scalar `snapshot_data` would raise `TypeError`
in Python; that branch is unreachable because `step_size` is even, so the
bulk read never returns exactly one value. -/
def decodeTlog (fc : List Nat) : Except PyErr TrajectoryLog :=
  match decodeHeader fc with
  | .error e => .error e
  | .ok (hdr, c0) =>
    let c1 := subbeamCursor c0 hdr.num_subbeams
    let step_size : Int := 2 * hdr.samples_per_axis.sum
    match decode_binary fc c1 .float (step_size * hdr.num_snapshots) 0 with
    | (.error e, _) => .error e
    | (.ok (.floatScalar _), _) => .error .typeError
    | (.ok (.floatTuple snapshot_data), _) =>
      match mkAxis snapshot_data 0 step_size with
      | .error e => .error e
      | .ok collimator =>
        match mkAxis snapshot_data 2 step_size with
        | .error e => .error e
        | .ok gantry =>
          match mkAxis snapshot_data 4 step_size with
          | .error e => .error e
          | .ok jaw_y1 =>
            match mkAxis snapshot_data 6 step_size with
            | .error e => .error e
            | .ok jaw_y2 =>
              match mkAxis snapshot_data 8 step_size with
              | .error e => .error e
              | .ok jaw_x1 =>
                match mkAxis snapshot_data 10 step_size with
                | .error e => .error e
                | .ok jaw_x2 =>
                  match mkAxis snapshot_data 12 step_size with
                  | .error e => .error e
                  | .ok couch_vrt =>
                    match mkAxis snapshot_data 14 step_size with
                    | .error e => .error e
                    | .ok couch_lng =>
                      match mkAxis snapshot_data 16 step_size with
                      | .error e => .error e
                      | .ok couch_lat =>
                        match mkAxis snapshot_data 18 step_size with
                        | .error e => .error e
                        | .ok couch_rtn =>
                          match mkAxis snapshot_data 20 step_size with
                          | .error e => .error e
                          | .ok mu =>
                            match mkAxis snapshot_data 22 step_size with
                            | .error e => .error e
                            | .ok beam_hold =>
                              match mkAxis snapshot_data 24 step_size with
                              | .error e => .error e
                              | .ok control_point =>
                                match mkAxis snapshot_data 26 step_size with
                                | .error e => .error e
                                | .ok carraigeA =>
                                  match mkAxis snapshot_data 28 step_size with
                                  | .error e => .error e
                                  | .ok carriageB =>
                                    match mlcAxes snapshot_data step_size
                                        (List.range hdr.num_mlc_leaves.toNat) with
                                    | .error e => .error e
                                    | .ok mlc =>
                                      .ok { toHeader := hdr
                                            snapshot_data := snapshot_data
                                            collimator := collimator
                                            gantry := gantry
                                            jaw_y1 := jaw_y1
                                            jaw_y2 := jaw_y2
                                            jaw_x1 := jaw_x1
                                            jaw_x2 := jaw_x2
                                            couch_vrt := couch_vrt
                                            couch_lng := couch_lng
                                            couch_lat := couch_lat
                                            couch_rtn := couch_rtn
                                            mu := mu
                                            beam_hold := beam_hold
                                            control_point := control_point
                                            carraigeA := carraigeA
                                            carriageB := carriageB
                                            mlc := mlc }
    | (.ok _, _) => .error .typeError

/-- Modelled from the spec: the expected literal format tag of a trajectory
log ("for version 1.5 will be VOSTL" per the source comment); the spec's
step 1 demands the signature be compared against this tag. -/
def expectedSignature : String := "VOSTL"

/-- Modelled from the spec: one column of the snapshot matrix as the spec
describes it, "the column at offset c sampled at stride step across all
rows" - for every row index `j < snap`, the flat-sequence element at
offset `c + j * step`. -/
def specColumn (data : List Nat) (snap step c : Nat) : List Nat :=
  (List.range snap).filterMap (fun j => data[c + j * step]?)

/-- Four-byte chunking yields one group per four bytes. -/
theorem chunk4_length : ∀ l : List Nat, (chunk4 l).length = l.length / 4
  | [] => rfl
  | [_] => by simp [chunk4]
  | [_, _] => by simp [chunk4]
  | [_, _, _] => by simp [chunk4]
  | _ :: _ :: _ :: _ :: r => by
    simp only [chunk4, List.length_cons, chunk4_length r]
    omega

/-- A successful string read returns a string value and advances the cursor
by the requested byte count plus the explicit shift. -/
theorem db_str_ok (fc : List Nat) (c n s c2 : Int) (o : BinOutput)
    (h : decode_binary fc c .str n s = (.ok o, c2)) :
    (∃ t, o = .str t) ∧ c2 = c + n + s := by
  unfold decode_binary at h
  dsimp only at h
  split at h
  · exact absurd h (by simp)
  · injection h with h1 h2
    injection h1 with h1
    exact ⟨⟨_, h1.symm⟩, h2.symm⟩

/-- A successful int32 read advances the cursor by `4 * num_values` plus the
explicit shift. -/
theorem db_int_ok (fc : List Nat) (c n s c2 : Int) (o : BinOutput)
    (h : decode_binary fc c .int n s = (.ok o, c2)) :
    c2 = c + 4 * n + s := by
  unfold decode_binary at h
  dsimp only at h
  split at h
  · split at h
    · injection h with h1 h2; omega
    · injection h with h1 h2; omega
  · exact absurd h (by simp)

/-- A successful float32 bulk read returning a tuple yields exactly
`num_values.toNat` words. -/
theorem db_float_tuple (fc : List Nat) (c n s c2 : Int) (ws : List Nat)
    (h : decode_binary fc c .float n s = (.ok (.floatTuple ws), c2)) :
    ws.length = n.toNat := by
  unfold decode_binary at h
  dsimp only at h
  split at h
  next hlen =>
    split at h
    · exact absurd h (by simp)
    · injection h with h1 h2
      have h3 : List.map toWord32 (chunk4 (pySlice fc c (c + 4 * n))) = ws := by
        injection h1 with hh
        injection hh with hh2
      rw [← h3, List.length_map, chunk4_length, hlen]
      omega
  · exact absurd h (by simp)

/-- `decode_binary` never raises the `IOError` kind: that exception is only
introduced by the caller's `try/except` around the signature read. -/
theorem db_no_io (fc : List Nat) (c n s c2 : Int) (d : DType) (e : PyErr)
    (h : decode_binary fc c d n s = (.error e, c2)) : e ≠ .ioError := by
  cases d <;> unfold decode_binary at h <;> dsimp only at h
  · split at h
    · injection h with h1 _; injection h1 with h1; simp [← h1]
    · exact absurd h (by simp)
  · split at h
    · split at h <;> exact absurd h (by simp)
    · injection h with h1 _; injection h1 with h1; simp [← h1]
  · split at h
    · split at h <;> exact absurd h (by simp)
    · injection h with h1 _; injection h1 with h1; simp [← h1]
  · injection h with h1 _; injection h1 with h1; simp [← h1]

/-- A `filterMap` over `range n` whose function always hits keeps all `n`
elements. -/
theorem filterMap_range_length (f : Nat → Option α) :
    ∀ n : Nat, (∀ j, j < n → (f j).isSome) →
      ((List.range n).filterMap f).length = n := by
  intro n
  induction n with
  | zero => intro _; simp
  | succ m ih =>
    intro h
    rw [List.range_succ, List.filterMap_append, List.length_append,
      ih (fun j hj => h j (Nat.lt_succ_of_lt hj))]
    obtain ⟨a, ha⟩ := Option.isSome_iff_exists.mp (h m (Nat.lt_succ_self m))
    simp [List.filterMap_cons, ha]

/-- The CPython slice-length numerator divided by the step: on a list of
exactly `k * snap` elements, a slice starting inside the first row has one
element per row. -/
theorem stride_count (k snap c : Nat) (hk : 0 < k) (hc : c < k) :
    (k * snap - c + k - 1) / k = snap := by
  cases snap with
  | zero =>
    rw [Nat.mul_zero]
    have he : 0 - c + k - 1 = k - 1 := by omega
    rw [he]
    exact Nat.div_eq_of_lt (by omega)
  | succ m =>
    have h2 : k ≤ k * (m + 1) := Nat.le_mul_of_pos_right k (Nat.succ_pos m)
    have h1 : k * (m + 1) - c + k - 1 = (k - 1 - c) + k * (m + 1) := by omega
    rw [h1, Nat.add_mul_div_left _ _ hk, Nat.div_eq_of_lt (by omega)]
    omega

/-- On a list of exactly `k * snap` elements, the extended slice `l[c::k]`
with `c < k` has exactly `snap` elements: one per row of the snapshot
matrix. -/
theorem pyStridePos_len_snap (l : List α) (c k snap : Nat) (hc : c < k)
    (hl : l.length = k * snap) : (pyStridePos l c k).length = snap := by
  have hk : 0 < k := by omega
  unfold pyStridePos
  rw [hl, stride_count k snap c hk hc]
  apply filterMap_range_length
  intro j hj
  have h1 : j + 1 ≤ snap := hj
  have h2 : (j + 1) * k ≤ snap * k := Nat.mul_le_mul_right k h1
  have h3 : snap * k = k * snap := Nat.mul_comm snap k
  have h4 : (j + 1) * k = j * k + k := Nat.succ_mul j k
  have hidx : c + j * k < l.length := by rw [hl]; omega
  rw [List.getElem?_eq_getElem hidx]
  rfl

/-- On a list of exactly `k * snap` elements the extended slice `l[c::k]`
(positive step `k`) coincides with the spec's description of a column: the
element at offset `c + j * k` for each row index `j < snap` (entries past
the end, which arise only when `c` does not fit in a row, drop out on both
sides). -/
theorem pyStridePos_eq_specColumn (l : List Nat) (k snap c : Nat) (hk : 0 < k)
    (hl : l.length = k * snap) :
    pyStridePos l c k = specColumn l snap k c := by
  unfold pyStridePos specColumn
  rw [hl]
  set n0 := (k * snap - c + k - 1) / k with hn0
  have hceil : ∀ m : Nat, m ≤ k * ((m + k - 1) / k) := by
    intro m
    have hd := Nat.div_add_mod (m + k - 1) k
    have hm := Nat.mod_lt (m + k - 1) hk
    omega
  have hn0k : k * snap - c ≤ k * n0 := hceil (k * snap - c)
  have hle : n0 ≤ snap := by
    have h1 : k * snap - c + k - 1 ≤ (k - 1) + k * snap := by omega
    have h2 : n0 ≤ ((k - 1) + k * snap) / k := by
      rw [hn0]; exact Nat.div_le_div_right h1
    rw [Nat.add_mul_div_left _ _ hk, Nat.div_eq_of_lt (by omega)] at h2
    omega
  have hsplit : snap = n0 + (snap - n0) := by omega
  conv_rhs => rw [hsplit]
  rw [List.range_add, List.filterMap_append, List.filterMap_map]
  have hnil : List.filterMap ((fun j => l[c + j * k]?) ∘ fun x => n0 + x)
      (List.range (snap - n0)) = [] := by
    rw [List.filterMap_eq_nil_iff]
    intro j hj
    simp only [Function.comp]
    apply List.getElem?_eq_none
    rw [hl]
    have hexp : (n0 + j) * k = n0 * k + j * k := Nat.add_mul n0 j k
    have hcm : n0 * k = k * n0 := Nat.mul_comm n0 k
    have hsub : k * snap ≤ (k * snap - c) + c := by omega
    omega
  rw [hnil, List.append_nil]

/-- With a positive step, axis construction always succeeds and yields the
two positive-stride slices. -/
theorem mkAxis_pos (step : Int) (hpos : 0 < step) (data : List Nat) (c : Nat) :
    mkAxis data c step =
      .ok ⟨pyStridePos data c step.toNat, pyStridePos data (c + 1) step.toNat⟩ := by
  have h0 : ¬ step = 0 := by omega
  simp only [mkAxis, pyStrideSlice, if_neg h0, if_pos hpos]

/-- With a negative step, axis construction succeeds with backward slices. -/
theorem mkAxis_neg (step : Int) (hneg : step < 0) (data : List Nat) (c : Nat) :
    mkAxis data c step =
      .ok ⟨pyStrideNeg data c (-step).toNat, pyStrideNeg data (c + 1) (-step).toNat⟩ := by
  have h0 : ¬ step = 0 := by omega
  have h1 : ¬ 0 < step := by omega
  simp only [mkAxis, pyStrideSlice, if_neg h0, if_neg h1]

/-- With a zero step the first slice raises `ValueError` (Python: slice step
cannot be zero). -/
theorem mkAxis_zero (data : List Nat) (c : Nat) :
    mkAxis data c 0 = .error .valueError := by
  unfold mkAxis pyStrideSlice
  simp

/-- With a positive step the MLC loop succeeds on every leaf list, producing
the two positive-stride slices per leaf. -/
theorem mlcAxes_pos (data : List Nat) (step : Int) (hpos : 0 < step) :
    ∀ leaves : List Nat, mlcAxes data step leaves =
      .ok (leaves.map fun leaf =>
        ⟨pyStridePos data (30 + 2 * leaf) step.toNat,
         pyStridePos data (30 + 2 * leaf + 1) step.toNat⟩) := by
  intro leaves
  induction leaves with
  | nil => rfl
  | cons a t ih =>
    unfold mlcAxes
    rw [mkAxis_pos step hpos, ih]
    rfl

/-- With a negative step the MLC loop succeeds with backward slices. -/
theorem mlcAxes_neg (data : List Nat) (step : Int) (hneg : step < 0) :
    ∀ leaves : List Nat, mlcAxes data step leaves =
      .ok (leaves.map fun leaf =>
        ⟨pyStrideNeg data (30 + 2 * leaf) (-step).toNat,
         pyStrideNeg data (30 + 2 * leaf + 1) (-step).toNat⟩) := by
  intro leaves
  induction leaves with
  | nil => rfl
  | cons a t ih =>
    unfold mlcAxes
    rw [mkAxis_neg step hneg, ih]
    rfl

/-- Deconstruction of a successful decode: the header phase succeeded with
exactly the header stored in the log, the snapshot block holds
`step_size * num_snapshots` words, the MLC list has one entry per leaf of
the derived count, and (when the stride is positive, the only geometrically
meaningful case) every axis is exactly the forward extended slice the
source assigns. -/
theorem decodeTlog_ok_struct (fc : List Nat) (log : TrajectoryLog)
    (h : decodeTlog fc = .ok log) :
    (∃ c0, decodeHeader fc = .ok (log.toHeader, c0))
    ∧ log.snapshot_data.length =
        (2 * log.samples_per_axis.sum * log.num_snapshots).toNat
    ∧ log.mlc.length = log.num_mlc_leaves.toNat
    ∧ (0 < 2 * log.samples_per_axis.sum →
        (log.collimator = ⟨pyStridePos log.snapshot_data 0
            (2 * log.samples_per_axis.sum).toNat,
          pyStridePos log.snapshot_data (0 + 1) (2 * log.samples_per_axis.sum).toNat⟩
        ∧ log.gantry = ⟨pyStridePos log.snapshot_data 2
            (2 * log.samples_per_axis.sum).toNat,
          pyStridePos log.snapshot_data (2 + 1) (2 * log.samples_per_axis.sum).toNat⟩
        ∧ log.jaw_y1 = ⟨pyStridePos log.snapshot_data 4
            (2 * log.samples_per_axis.sum).toNat,
          pyStridePos log.snapshot_data (4 + 1) (2 * log.samples_per_axis.sum).toNat⟩
        ∧ log.jaw_y2 = ⟨pyStridePos log.snapshot_data 6
            (2 * log.samples_per_axis.sum).toNat,
          pyStridePos log.snapshot_data (6 + 1) (2 * log.samples_per_axis.sum).toNat⟩
        ∧ log.jaw_x1 = ⟨pyStridePos log.snapshot_data 8
            (2 * log.samples_per_axis.sum).toNat,
          pyStridePos log.snapshot_data (8 + 1) (2 * log.samples_per_axis.sum).toNat⟩
        ∧ log.jaw_x2 = ⟨pyStridePos log.snapshot_data 10
            (2 * log.samples_per_axis.sum).toNat,
          pyStridePos log.snapshot_data (10 + 1) (2 * log.samples_per_axis.sum).toNat⟩
        ∧ log.couch_vrt = ⟨pyStridePos log.snapshot_data 12
            (2 * log.samples_per_axis.sum).toNat,
          pyStridePos log.snapshot_data (12 + 1) (2 * log.samples_per_axis.sum).toNat⟩
        ∧ log.couch_lng = ⟨pyStridePos log.snapshot_data 14
            (2 * log.samples_per_axis.sum).toNat,
          pyStridePos log.snapshot_data (14 + 1) (2 * log.samples_per_axis.sum).toNat⟩
        ∧ log.couch_lat = ⟨pyStridePos log.snapshot_data 16
            (2 * log.samples_per_axis.sum).toNat,
          pyStridePos log.snapshot_data (16 + 1) (2 * log.samples_per_axis.sum).toNat⟩
        ∧ log.couch_rtn = ⟨pyStridePos log.snapshot_data 18
            (2 * log.samples_per_axis.sum).toNat,
          pyStridePos log.snapshot_data (18 + 1) (2 * log.samples_per_axis.sum).toNat⟩
        ∧ log.mu = ⟨pyStridePos log.snapshot_data 20
            (2 * log.samples_per_axis.sum).toNat,
          pyStridePos log.snapshot_data (20 + 1) (2 * log.samples_per_axis.sum).toNat⟩
        ∧ log.beam_hold = ⟨pyStridePos log.snapshot_data 22
            (2 * log.samples_per_axis.sum).toNat,
          pyStridePos log.snapshot_data (22 + 1) (2 * log.samples_per_axis.sum).toNat⟩
        ∧ log.control_point = ⟨pyStridePos log.snapshot_data 24
            (2 * log.samples_per_axis.sum).toNat,
          pyStridePos log.snapshot_data (24 + 1) (2 * log.samples_per_axis.sum).toNat⟩
        ∧ log.carraigeA = ⟨pyStridePos log.snapshot_data 26
            (2 * log.samples_per_axis.sum).toNat,
          pyStridePos log.snapshot_data (26 + 1) (2 * log.samples_per_axis.sum).toNat⟩
        ∧ log.carriageB = ⟨pyStridePos log.snapshot_data 28
            (2 * log.samples_per_axis.sum).toNat,
          pyStridePos log.snapshot_data (28 + 1) (2 * log.samples_per_axis.sum).toNat⟩
        ∧ log.mlc = (List.range log.num_mlc_leaves.toNat).map (fun leaf =>
            ⟨pyStridePos log.snapshot_data (30 + 2 * leaf)
               (2 * log.samples_per_axis.sum).toNat,
             pyStridePos log.snapshot_data (30 + 2 * leaf + 1)
               (2 * log.samples_per_axis.sum).toNat⟩))) := by
  unfold decodeTlog at h
  split at h
  · exact absurd h (by simp)
  next hdr c0 hhd =>
    dsimp only at h
    split at h
    · exact absurd h (by simp)
    · exact absurd h (by simp)
    case _ data c2 hsn =>
      rcases lt_trichotomy (2 * hdr.samples_per_axis.sum) 0 with hneg | hzero | hpos
      · rw [mkAxis_neg _ hneg, mkAxis_neg _ hneg, mkAxis_neg _ hneg, mkAxis_neg _ hneg,
          mkAxis_neg _ hneg, mkAxis_neg _ hneg, mkAxis_neg _ hneg, mkAxis_neg _ hneg,
          mkAxis_neg _ hneg, mkAxis_neg _ hneg, mkAxis_neg _ hneg, mkAxis_neg _ hneg,
          mkAxis_neg _ hneg, mkAxis_neg _ hneg, mkAxis_neg _ hneg,
          mlcAxes_neg _ _ hneg] at h
        dsimp only at h
        injection h with h
        subst h
        refine ⟨⟨c0, hhd⟩, ?_, ?_, ?_⟩
        · exact db_float_tuple fc _ _ 0 c2 data hsn
        · simp
        · intro hp
          dsimp only at hp
          omega
      · rw [hzero] at h
        rw [mkAxis_zero] at h
        exact absurd h (by simp)
      · rw [mkAxis_pos _ hpos, mkAxis_pos _ hpos, mkAxis_pos _ hpos, mkAxis_pos _ hpos,
          mkAxis_pos _ hpos, mkAxis_pos _ hpos, mkAxis_pos _ hpos, mkAxis_pos _ hpos,
          mkAxis_pos _ hpos, mkAxis_pos _ hpos, mkAxis_pos _ hpos, mkAxis_pos _ hpos,
          mkAxis_pos _ hpos, mkAxis_pos _ hpos, mkAxis_pos _ hpos,
          mlcAxes_pos _ _ hpos] at h
        dsimp only at h
        injection h with h
        subst h
        refine ⟨⟨c0, hhd⟩, ?_, ?_, ?_⟩
        · exact db_float_tuple fc _ _ 0 c2 data hsn
        · simp
        · intro _
          exact ⟨rfl, rfl, rfl, rfl, rfl, rfl, rfl, rfl, rfl, rfl, rfl, rfl, rfl,
            rfl, rfl, rfl⟩
    · exact absurd h (by simp)

/-- Deconstruction of a successful header phase: the cursor after the
`mlc_model` read and its reserved-section shift is always the constant
byte offset `1024` (not the `header_size` value read from the stream), and
the derived leaf count satisfies `samples_per_axis[-1] = num_mlc_leaves + 2`
with a nonempty `samples_per_axis`. -/
theorem decodeHeader_ok_facts (fc : List Nat) (hdr : Header) (c : Int)
    (h : decodeHeader fc = .ok (hdr, c)) :
    c = 1024 ∧ hdr.samples_per_axis.getLast? = some (hdr.num_mlc_leaves + 2) := by
  unfold decodeHeader at h
  split at h <;> try exact Except.noConfusion h
  rename_i signature c1 hsig
  split at h <;> try exact Except.noConfusion h
  rename_i vtext c2 hver
  split at h <;> try exact Except.noConfusion h
  rename_i hfl
  split at h <;> try exact Except.noConfusion h
  rename_i header_size c3 hhs
  split at h <;> try exact Except.noConfusion h
  rename_i sampling_interval c4 hsi
  split at h <;> try exact Except.noConfusion h
  rename_i num_axes c5 hna
  split at h <;> try exact Except.noConfusion h
  rename_i axis_enum c6 hae
  split at h <;> try exact Except.noConfusion h
  rename_i s0 srest c7 hspa
  split at h <;> try exact Except.noConfusion h
  rename_i clinac_scale c8 hcs
  split at h <;> try exact Except.noConfusion h
  rename_i num_subbeams c9 hnsb
  split at h <;> try exact Except.noConfusion h
  rename_i is_truncated c10 hit
  split at h <;> try exact Except.noConfusion h
  rename_i num_snapshots c11 hnsn
  split at h <;> try exact Except.noConfusion h
  rename_i mlc_model c12 hmm
  injection h with h
  injection h with h1 h2
  subst h2
  have e1 := (db_str_ok fc 0 16 0 c1 _ hsig).2
  have e2 := (db_str_ok fc c1 16 0 c2 _ hver).2
  have e3 := db_int_ok fc c2 1 0 c3 _ hhs
  have e4 := db_int_ok fc c3 1 0 c4 _ hsi
  have e5 := db_int_ok fc c4 1 0 c5 _ hna
  have e6 := db_int_ok fc c5 num_axes 0 c6 _ hae
  have e7 := db_int_ok fc c6 num_axes 0 c7 _ hspa
  have e8 := db_int_ok fc c7 1 0 c8 _ hcs
  have e9 := db_int_ok fc c8 1 0 c9 _ hnsb
  have e10 := db_int_ok fc c9 1 0 c10 _ hit
  have e11 := db_int_ok fc c10 1 0 c11 _ hnsn
  have e12 := db_int_ok fc c11 1 (1024 - (64 + num_axes * 8)) c12 _ hmm
  constructor
  · omega
  · rw [← h1]
    dsimp only
    rw [List.getLast?_eq_getLast _ (List.cons_ne_nil s0 srest)]
    congr 1
    omega

/-- When the 16 signature bytes fail to decode, the bare `try/except` around
the signature read fires and decoding fails with `IOError`. -/
theorem decodeHeader_io_of_badsig (fc : List Nat)
    (hbad : utf8Decode (pySlice fc 0 16) = none) :
    decodeHeader fc = .error .ioError := by
  have hsig : decode_binary fc 0 .str 16 0 = (.error .unicodeDecodeError, 0) := by
    unfold decode_binary
    dsimp only
    rw [show (0 : Int) + 16 = 16 from by norm_num, hbad]
  unfold decodeHeader
  rw [hsig]

/-- When the 16 signature bytes decode, no later step of the header phase
can produce the `IOError` kind: every later failure is a typed Python
exception of a different kind. -/
theorem decodeHeader_no_io (fc : List Nat) (cs : List Char)
    (hgood : utf8Decode (pySlice fc 0 16) = some cs) (e : PyErr)
    (h : decodeHeader fc = .error e) : e ≠ .ioError := by
  have hsig : decode_binary fc 0 .str 16 0 =
      (.ok (.str (String.mk (stripNulls cs))), 0 + 16 + 0) := by
    unfold decode_binary
    dsimp only
    rw [show (0 : Int) + 16 = 16 from by norm_num, hgood]
  unfold decodeHeader at h
  rw [hsig] at h
  dsimp only at h
  repeat'
    first
    | exact Except.noConfusion h
    | (injection h with h; subst h; decide)
    | (rename_i e2 c2 hde
       injection h with h
       subst h
       exact db_no_io _ _ _ _ _ _ _ hde)
    | split at h

/-- An erroring axis construction can only raise `ValueError` (the zero
slice step). -/
theorem mkAxis_err (data : List Nat) (c : Nat) (step : Int) (e : PyErr)
    (h : mkAxis data c step = .error e) : e = .valueError := by
  rcases lt_trichotomy step 0 with hneg | hz | hpos
  · rw [mkAxis_neg step hneg] at h; exact Except.noConfusion h
  · subst hz; rw [mkAxis_zero] at h; injection h with h; exact h.symm
  · rw [mkAxis_pos step hpos] at h; exact Except.noConfusion h

/-- An erroring MLC loop can only raise `ValueError`. -/
theorem mlcAxes_err (data : List Nat) (step : Int) (e : PyErr) :
    ∀ l : List Nat, mlcAxes data step l = .error e → e = .valueError := by
  intro l
  induction l with
  | nil => intro h; exact Except.noConfusion h
  | cons a t ih =>
    intro h
    unfold mlcAxes at h
    split at h
    · rename_i e2 hmk
      injection h with h
      subst h
      exact mkAxis_err data _ step _ hmk
    · rename_i ax hmk
      split at h
      · rename_i e2 hml
        injection h with h
        subst h
        exact ih hml
      · exact Except.noConfusion h

/-- Little-endian int32 encoding, used to build the concrete test buffers. -/
def i32 (v : Int) : List Nat :=
  let w := (v % 4294967296).toNat
  [w % 256, w / 256 % 256, w / 65536 % 256, w / 16777216 % 256]

/-- A text field padded with null bytes to a fixed width, used to build the
concrete test buffers. -/
def strPad (s : String) (width : Nat) : List Nat :=
  s.data.map Char.toNat ++ List.replicate (width - s.length) 0

/-- A complete well-formed 1160-byte buffer: signature `VOSTL`, version
`2.1`, `header_size = 1024`, `num_axes = 2`, `samples_per_axis = [14, 3]`
(so one MLC leaf and row stride `34`), no sub-beams, one snapshot, and an
all-zero snapshot block of 34 float32 words. -/
def bufA : List Nat :=
  strPad "VOSTL" 16 ++ strPad "2.1" 16 ++ i32 1024 ++ i32 250 ++ i32 2 ++
  i32 1 ++ i32 2 ++ i32 14 ++ i32 3 ++ i32 1 ++ i32 0 ++ i32 0 ++ i32 1 ++
  i32 2 ++ List.replicate 944 0 ++ List.replicate 136 0

/-- The header decoded from `bufA`. -/
def hdrA : Header :=
  { signature := "VOSTL", version := "2.1", header_size := 1024,
    sampling_interval := 250, num_axes := 2, axis_enum := .intTuple [1, 2],
    samples_per_axis := [14, 3], num_mlc_leaves := 1, clinac_scale := 1,
    num_subbeams := 0, is_truncated := 0, num_snapshots := 1, mlc_model := 2 }

/-- The log decoded from `bufA`: with an all-zero snapshot block every axis
carries one zero expected and one zero actual sample. -/
def logA : TrajectoryLog :=
  { toHeader := hdrA, snapshot_data := List.replicate 34 0,
    collimator := ⟨[0], [0]⟩, gantry := ⟨[0], [0]⟩,
    jaw_y1 := ⟨[0], [0]⟩, jaw_y2 := ⟨[0], [0]⟩,
    jaw_x1 := ⟨[0], [0]⟩, jaw_x2 := ⟨[0], [0]⟩,
    couch_vrt := ⟨[0], [0]⟩, couch_lng := ⟨[0], [0]⟩,
    couch_lat := ⟨[0], [0]⟩, couch_rtn := ⟨[0], [0]⟩,
    mu := ⟨[0], [0]⟩, beam_hold := ⟨[0], [0]⟩, control_point := ⟨[0], [0]⟩,
    carraigeA := ⟨[0], [0]⟩, carriageB := ⟨[0], [0]⟩,
    mlc := [⟨[0], [0]⟩] }

/-- `bufA` decodes successfully to `logA`. -/
theorem decodeTlog_bufA : decodeTlog bufA = .ok logA := by rfl

/-- The header phase of `bufA` ends with the cursor at byte 1024. -/
theorem decodeHeader_bufA : decodeHeader bufA = .ok (hdrA, 1024) := by rfl

/-- An 80-byte buffer whose signature is not the expected format tag, with
`header_size = 2048`, `samples_per_axis = [1, 3]` and zero snapshots; it
still decodes successfully. -/
def bufB : List Nat :=
  strPad "NOTAVOSTLOGFILE" 16 ++ strPad "2.1" 16 ++ i32 2048 ++ i32 250 ++
  i32 2 ++ i32 1 ++ i32 2 ++ i32 1 ++ i32 3 ++ i32 1 ++ i32 0 ++ i32 0 ++
  i32 0 ++ i32 2

/-- A 1056-byte buffer with `samples_per_axis = [1, 3]` (row stride 8, one
MLC leaf) and one snapshot: several documented column offsets (10, 11 for
jaw_x2; 30, 31 for leaf 1) lie beyond the row stride. -/
def bufC : List Nat :=
  strPad "VOSTL" 16 ++ strPad "2.1" 16 ++ i32 1024 ++ i32 250 ++ i32 2 ++
  i32 1 ++ i32 2 ++ i32 1 ++ i32 3 ++ i32 1 ++ i32 0 ++ i32 0 ++ i32 1 ++
  i32 2 ++ List.replicate 944 0 ++ List.replicate 32 0

/-- An 80-byte buffer whose last `samples_per_axis` entry is 0, so the
derived `num_mlc_leaves` is -2; it decodes successfully anyway. -/
def bufD : List Nat :=
  strPad "VOSTL" 16 ++ strPad "2.1" 16 ++ i32 1024 ++ i32 250 ++ i32 2 ++
  i32 1 ++ i32 2 ++ i32 1 ++ i32 0 ++ i32 1 ++ i32 0 ++ i32 0 ++ i32 0 ++
  i32 2

/-- An 80-byte well-formed buffer with `samples_per_axis = [1, 2]` (zero MLC
leaves) and zero snapshots. -/
def bufF : List Nat :=
  strPad "VOSTL15" 16 ++ strPad "2.1" 16 ++ i32 1024 ++ i32 250 ++ i32 2 ++
  i32 1 ++ i32 2 ++ i32 1 ++ i32 2 ++ i32 1 ++ i32 0 ++ i32 0 ++ i32 0 ++
  i32 2

/-- The log decoded from `bufF`: zero snapshots, every sequence empty. -/
def logF : TrajectoryLog :=
  { signature := "VOSTL15", version := "2.1", header_size := 1024,
    sampling_interval := 250, num_axes := 2, axis_enum := .intTuple [1, 2],
    samples_per_axis := [1, 2], num_mlc_leaves := 0, clinac_scale := 1,
    num_subbeams := 0, is_truncated := 0, num_snapshots := 0, mlc_model := 2,
    snapshot_data := [],
    collimator := ⟨[], []⟩, gantry := ⟨[], []⟩,
    jaw_y1 := ⟨[], []⟩, jaw_y2 := ⟨[], []⟩,
    jaw_x1 := ⟨[], []⟩, jaw_x2 := ⟨[], []⟩,
    couch_vrt := ⟨[], []⟩, couch_lng := ⟨[], []⟩,
    couch_lat := ⟨[], []⟩, couch_rtn := ⟨[], []⟩,
    mu := ⟨[], []⟩, beam_hold := ⟨[], []⟩, control_point := ⟨[], []⟩,
    carraigeA := ⟨[], []⟩, carriageB := ⟨[], []⟩,
    mlc := [] }

/-- `bufF` decodes successfully to `logF`. -/
theorem decodeTlog_bufF : decodeTlog bufF = .ok logF := by rfl

/-- C8: after the header phase the decoder skips exactly `80 * num_subbeams`
bytes before the snapshot block: the cursor handed to the snapshot read is
`subbeamCursor` of the post-header cursor, and for every nonnegative
sub-beam count it advances by exactly `80 * num_subbeams` (in particular
400 bytes for 5 sub-beams and none for 0). -/
theorem subbeam_skip (c n : Int) (hn : 0 ≤ n) : subbeamCursor c n = c + 80 * n := by
  unfold subbeamCursor
  split
  · rw [Int.toNat_of_nonneg hn]
  · rename_i h0
    simp only [ne_eq, not_not] at h0
    omega

/-- Witness for `subbeam_skip` at the concrete sub-beam counts 5 and 0. -/
theorem subbeam_skip_witness :
    subbeamCursor 1024 5 = 1024 + 80 * 5 ∧ subbeamCursor 1024 0 = 1024 + 80 * 0 :=
  ⟨subbeam_skip 1024 5 (by norm_num), subbeam_skip 1024 0 (by norm_num)⟩

/-- C10: `decode_binary` with a dtype other than str/int/float raises
`TypeError` and leaves the cursor exactly where it was. -/
theorem decode_binary_bad_dtype (fc : List Nat) (c n s : Int) :
    decode_binary fc c .other n s = (.error .typeError, c) := rfl

/-- C7 counterexample: a negative `cursor_shift` does not fail with any
`InvalidLayout`-style error; the read succeeds and the cursor moves
backwards (from 8 to 4), violating monotonicity. -/
theorem skip_monotone_counterexample :
    decode_binary (List.replicate 16 7) 8 .int 1 (-8) =
      (.ok (.intScalar 117901063), 4) ∧ ¬ ((8 : Int) ≤ 4) :=
  ⟨by rfl, by norm_num⟩

/-- C7 amended: the cursor shift is applied unconditionally with no
negativity check, so the read position is monotonically non-decreasing
only when the requested count and the shift are nonnegative (as they are
for every call except the header's computed reserved-section shift, which
can be negative for `num_axes > 120`). -/
theorem skip_monotone_amended (fc : List Nat) (c : Int) (d : DType)
    (n s : Int) (hn : 0 ≤ n) (hs : 0 ≤ s) :
    c ≤ (decode_binary fc c d n s).2 := by
  cases d <;> unfold decode_binary <;> dsimp only
  · split <;> dsimp only <;> omega
  · split
    · split <;> dsimp only <;> omega
    · dsimp only; omega
  · split
    · split <;> dsimp only <;> omega
    · dsimp only; omega
  · omega

/-- Witness for `skip_monotone_amended` at a concrete int32 read. -/
theorem skip_monotone_witness :
    (0 : Int) ≤ (decode_binary [0, 0, 0, 0] 0 .int 1 0).2 :=
  skip_monotone_amended [0, 0, 0, 0] 0 .int 1 0 (by norm_num) (by norm_num)

/-- C3 counterexample: a buffer declaring `header_size = 2048` still ends
the header phase with the cursor at byte 1024, not at the declared
header_size boundary. -/
theorem header_skip_counterexample :
    (decodeHeader bufB).map (fun p => (p.1.header_size, p.2)) = .ok (2048, 1024) ∧
    (2048 : Int) ≠ 1024 :=
  ⟨by rfl, by norm_num⟩

/-- C3 amended: after reading `mlc_model` the decoder skips
`1024 - (64 + num_axes * 8)` bytes - the constant 1024, not the declared
`header_size` - so every successful header phase ends with the cursor at
exactly byte 1024 regardless of `header_size`; a negative remainder is
applied silently with no `InvalidLayout` failure. -/
theorem header_skip_amended (fc : List Nat) (r : Header × Int)
    (h : decodeHeader fc = .ok r) : r.2 = 1024 :=
  (decodeHeader_ok_facts fc r.1 r.2 h).1

/-- Witness for `header_skip_amended` on the concrete buffer `bufA`. -/
theorem header_skip_witness :
    decodeHeader bufA = .ok (hdrA, 1024) ∧
    ((hdrA, (1024 : Int)) : Header × Int).2 = 1024 :=
  ⟨decodeHeader_bufA, header_skip_amended bufA (hdrA, 1024) decodeHeader_bufA⟩

/-- C4 counterexample: a buffer whose last `samples_per_axis` entry is 0
derives `num_mlc_leaves = -2` and still decodes successfully (with an empty
leaf table) instead of failing with any `MalformedHeader`-style error. -/
theorem mlc_leaf_count_counterexample :
    (decodeTlog bufD).map (fun l => (l.num_mlc_leaves, l.mlc.length)) =
      .ok (-2, 0) := by rfl

/-- C4 amended: the decoder computes
`num_mlc_leaves = samples_per_axis[-1] - 2`, but a negative value is not
rejected: decoding proceeds and the MLC table is simply empty (it has
`max(num_mlc_leaves, 0)` entries). -/
theorem mlc_leaf_count_amended (fc : List Nat) (log : TrajectoryLog)
    (h : decodeTlog fc = .ok log) :
    log.samples_per_axis.getLast? = some (log.num_mlc_leaves + 2) ∧
    log.mlc.length = log.num_mlc_leaves.toNat := by
  obtain ⟨⟨c0, hhd⟩, -, hmlc, -⟩ := decodeTlog_ok_struct fc log h
  exact ⟨(decodeHeader_ok_facts fc log.toHeader c0 hhd).2, hmlc⟩

/-- Witness for `mlc_leaf_count_amended` on the concrete buffer `bufA`. -/
theorem mlc_leaf_count_witness :
    decodeTlog bufA = .ok logA ∧
    logA.samples_per_axis.getLast? = some (logA.num_mlc_leaves + 2) ∧
    logA.mlc.length = logA.num_mlc_leaves.toNat :=
  ⟨decodeTlog_bufA, mlc_leaf_count_amended bufA logA decodeTlog_bufA⟩

/-- C9: decoding is deterministic: two decode passes over the same immutable
buffer, each starting from cursor position 0, that both succeed produce
field-for-field equal logs. -/
theorem decode_deterministic (fc : List Nat) (l1 l2 : TrajectoryLog)
    (h1 : decodeTlog fc = .ok l1) (h2 : decodeTlog fc = .ok l2) : l1 = l2 := by
  rw [h1] at h2
  injection h2

/-- Witness for `decode_deterministic` on the concrete buffer `bufF`. -/
theorem decode_deterministic_witness :
    decodeTlog bufF = .ok logF ∧ logF = logF :=
  ⟨decodeTlog_bufF,
   decode_deterministic bufF logF logF decodeTlog_bufF decodeTlog_bufF⟩

/-- A Python slice whose start lies at or past the end of the list is empty;
no error is raised. -/
theorem pySlice_past_end (l : List α) (a b : Int)
    (ha : (l.length : Int) ≤ a) (h0 : 0 ≤ a) : pySlice l a b = [] := by
  have hstart : pyIdx l.length a = l.length := by
    unfold pyIdx
    rw [if_neg (by omega)]
    exact Nat.min_eq_right (by omega)
  unfold pySlice
  rw [hstart, List.drop_length, List.take_nil]

/-- A string read whose cursor already lies at or past the end of the buffer
succeeds with the empty string and still advances the cursor by the full
requested count plus the shift: text reads never signal truncation. -/
theorem db_str_past_end (fc : List Nat) (c n s : Int)
    (hc : (fc.length : Int) ≤ c) (h0 : 0 ≤ c) :
    decode_binary fc c .str n s = (.ok (.str ""), c + n + s) := by
  unfold decode_binary
  dsimp only
  rw [pySlice_past_end fc c (c + n) hc h0]
  rfl

/-- C5 counterexample: the empty buffer does not fail with the
`UnrecognizedFormat` (`IOError`) or `TruncatedInput` (`struct.error`) kinds
the claim allows: the 16-byte signature and version text reads silently
return empty strings and decoding fails only at `float('')` with
`ValueError`. -/
theorem truncation_counterexample :
    decodeTlog [] = .error .valueError ∧
    PyErr.valueError ≠ PyErr.ioError ∧ PyErr.valueError ≠ PyErr.structError :=
  ⟨by rfl, by decide, by decide⟩

/-- A Python slice with equal start and stop is empty. -/
theorem pySlice_self (l : List α) (a : Int) : pySlice l a a = [] := by
  unfold pySlice
  rw [Nat.sub_self]
  exact List.take_zero _

/-- C5 amended: only int32/float32 reads detect missing bytes: a read of
`count >= 1` values at a nonnegative position fails with `struct.error`
(the code's `TruncatedInput`) whenever `position + 4 * count` exceeds the
buffer length, for the `int` and the `float` dtype alike (the latter is the
snapshot bulk read); a zero-count read succeeds even with the position past
the buffer end, returning the empty tuple - which is how a zero-snapshot
bulk read succeeds at cursor 1024 on an 80-byte buffer; text reads never
fail for lack of bytes - they return whatever is available and still
advance the cursor by the full requested count; and a buffer shorter than
16 bytes fails with `IOError` (undecodable signature bytes) or with
`ValueError` at the version parse, never returning a partial log. -/
theorem truncation_amended (fc : List Nat) :
    (fc.length < 16 →
      decodeTlog fc = .error .ioError ∨ decodeTlog fc = .error .valueError)
    ∧ (∀ c n s : Int, 0 ≤ c → (fc.length : Int) < c + 4 * n → 1 ≤ n →
        (decode_binary fc c .int n s).1 = .error .structError ∧
        (decode_binary fc c .float n s).1 = .error .structError)
    ∧ (∀ c s : Int,
        decode_binary fc c .int 0 s = (.ok (.intTuple []), c + s) ∧
        decode_binary fc c .float 0 s = (.ok (.floatTuple []), c + s))
    ∧ (∀ c n s : Int, ∀ cs : List Char,
        utf8Decode (pySlice fc c (c + n)) = some cs →
        decode_binary fc c .str n s =
          (.ok (.str (String.mk (stripNulls cs))), c + n + s)) := by
  refine ⟨?_, ?_, ?_, ?_⟩
  · intro hlen
    rcases hu : utf8Decode (pySlice fc 0 16) with _ | cs
    · left
      unfold decodeTlog
      rw [decodeHeader_io_of_badsig fc hu]
    · right
      have hsig : decode_binary fc 0 .str 16 0 =
          (.ok (.str (String.mk (stripNulls cs))), 0 + 16 + 0) := by
        unfold decode_binary
        dsimp only
        rw [show (0 : Int) + 16 = 16 from by norm_num, hu]
      have hhd : decodeHeader fc = .error .valueError := by
        unfold decodeHeader
        rw [hsig]
        dsimp only
        rw [db_str_past_end fc (0 + 16 + 0) 16 0 (by omega) (by norm_num)]
        rfl
      unfold decodeTlog
      rw [hhd]
  · intro c n s hc hover hn
    have hne : ¬ (pySlice fc c (c + 4 * n)).length = (4 * n).toNat := by
      unfold pySlice pyIdx
      rw [List.length_take, List.length_drop]
      split_ifs <;> omega
    constructor
    · unfold decode_binary
      dsimp only
      rw [if_neg hne]
    · unfold decode_binary
      dsimp only
      rw [if_neg hne]
  · intro c s
    constructor
    · unfold decode_binary
      dsimp only
      rw [show c + 4 * (0 : Int) = c from by ring, pySlice_self]
      rfl
    · unfold decode_binary
      dsimp only
      rw [show c + 4 * (0 : Int) = c from by ring, pySlice_self]
      rfl
  · intro c n s cs hu
    unfold decode_binary
    dsimp only
    rw [hu]

/-- Witness for `truncation_amended`: a 1-byte buffer fails at the version
parse; a 2-byte buffer fails a one-value int32 and a one-value float32 read
with `struct.error`; a zero-count int32 and float32 read at cursor 1024 on
a 1-byte buffer succeeds with the empty tuple; and a 1-byte buffer still
satisfies a full 16-byte text read. -/
theorem truncation_witness :
    (decodeTlog [42] = .error .ioError ∨ decodeTlog [42] = .error .valueError)
    ∧ ((decode_binary [1, 2] 0 .int 1 0).1 = .error .structError ∧
       (decode_binary [1, 2] 0 .float 1 0).1 = .error .structError)
    ∧ (decode_binary [9] 1024 .int 0 0 = (.ok (.intTuple []), 1024 + 0) ∧
       decode_binary [9] 1024 .float 0 0 = (.ok (.floatTuple []), 1024 + 0))
    ∧ decode_binary [65] 0 .str 16 0 = (.ok (.str "A"), 0 + 16 + 0) :=
  ⟨(truncation_amended [42]).1 (by decide),
   (truncation_amended [1, 2]).2.1 0 1 0 (by decide) (by decide) (by decide),
   (truncation_amended [9]).2.2.1 1024 0,
   (truncation_amended [65]).2.2.2 0 16 0 ['A'] (by rfl)⟩

/-- C6 counterexample: a buffer whose first 16 bytes are not the expected
format tag is not rejected: `bufB` (signature text `NOTAVOSTLOGFILE`)
decodes successfully, so further reads clearly proceed past the
signature. -/
theorem signature_check_counterexample :
    (decodeTlog bufB).map (fun l => l.signature) = .ok "NOTAVOSTLOGFILE" ∧
    "NOTAVOSTLOGFILE" ≠ expectedSignature ∧
    (decodeTlog bufB).isOk = true :=
  ⟨by rfl, by decide, by rfl⟩

/-- C6 amended: the decoder never compares the signature text against the
expected tag; decoding fails with `IOError` (the code's stand-in for
`UnrecognizedFormat`, produced by the bare `try/except` around the
signature read) exactly when the first 16 bytes are not decodable text,
and in that case no further read is attempted. -/
theorem signature_check_amended (fc : List Nat) :
    decodeTlog fc = .error .ioError ↔ utf8Decode (pySlice fc 0 16) = none := by
  constructor
  · intro h
    rcases hu : utf8Decode (pySlice fc 0 16) with _ | cs
    · rfl
    · exfalso
      unfold decodeTlog at h
      split at h
      · rename_i e2 hhd
        injection h with h
        exact decodeHeader_no_io fc cs hu e2 hhd h
      · rename_i hdr c0 hhd
        dsimp only at h
        repeat'
          first
          | exact Except.noConfusion h
          | (injection h with h; exact PyErr.noConfusion h)
          | (rename_i e2 c2 hde
             injection h with h
             exact absurd h (db_no_io _ _ _ _ _ _ _ hde))
          | (rename_i e2 hde
             injection h with h
             rw [mkAxis_err _ _ _ _ hde] at h
             exact PyErr.noConfusion h)
          | (rename_i e2 hde
             injection h with h
             rw [mlcAxes_err _ _ _ _ hde] at h
             exact PyErr.noConfusion h)
          | split at h
  · intro hbad
    unfold decodeTlog
    rw [decodeHeader_io_of_badsig fc hbad]

/-- Product of nonnegative integers commutes with `toNat`. -/
theorem int_toNat_mul (a b : Int) (ha : 0 ≤ a) (hb : 0 ≤ b) :
    (a * b).toNat = a.toNat * b.toNat := by
  obtain ⟨m, rfl⟩ := Int.eq_ofNat_of_zero_le ha
  obtain ⟨n, rfl⟩ := Int.eq_ofNat_of_zero_le hb
  rfl


/-- C1: the decoder computes the snapshot row stride as
`sum(samples_per_axis) * 2`, reads exactly `row_stride * num_snapshots`
float32 values as one flat sequence, and partitions it so that each fixed
axis occupies its documented column pair (collimator 0-1, gantry 2-3,
jaws 4-11, couch 12-19, monitor units 20-21, beam hold 22-23, control
point 24-25, carriages 26-29) and 1-indexed leaf `i` occupies columns
`30+2(i-1)` and `31+2(i-1)`; every expected sequence is the even-offset
column sampled at the row stride across all rows and every actual sequence
the odd-offset column at the same stride. -/
theorem snapshot_partition (fc : List Nat) (log : TrajectoryLog)
    (h : decodeTlog fc = .ok log)
    (hstep : 0 < 2 * log.samples_per_axis.sum)
    (hsnap : 0 ≤ log.num_snapshots) :
    log.snapshot_data.length = (2 * log.samples_per_axis.sum).toNat * log.num_snapshots.toNat
    ∧ log.collimator.expected = specColumn log.snapshot_data log.num_snapshots.toNat (2 * log.samples_per_axis.sum).toNat 0
    ∧ log.collimator.actual = specColumn log.snapshot_data log.num_snapshots.toNat (2 * log.samples_per_axis.sum).toNat 1
    ∧ log.gantry.expected = specColumn log.snapshot_data log.num_snapshots.toNat (2 * log.samples_per_axis.sum).toNat 2
    ∧ log.gantry.actual = specColumn log.snapshot_data log.num_snapshots.toNat (2 * log.samples_per_axis.sum).toNat 3
    ∧ log.jaw_y1.expected = specColumn log.snapshot_data log.num_snapshots.toNat (2 * log.samples_per_axis.sum).toNat 4
    ∧ log.jaw_y1.actual = specColumn log.snapshot_data log.num_snapshots.toNat (2 * log.samples_per_axis.sum).toNat 5
    ∧ log.jaw_y2.expected = specColumn log.snapshot_data log.num_snapshots.toNat (2 * log.samples_per_axis.sum).toNat 6
    ∧ log.jaw_y2.actual = specColumn log.snapshot_data log.num_snapshots.toNat (2 * log.samples_per_axis.sum).toNat 7
    ∧ log.jaw_x1.expected = specColumn log.snapshot_data log.num_snapshots.toNat (2 * log.samples_per_axis.sum).toNat 8
    ∧ log.jaw_x1.actual = specColumn log.snapshot_data log.num_snapshots.toNat (2 * log.samples_per_axis.sum).toNat 9
    ∧ log.jaw_x2.expected = specColumn log.snapshot_data log.num_snapshots.toNat (2 * log.samples_per_axis.sum).toNat 10
    ∧ log.jaw_x2.actual = specColumn log.snapshot_data log.num_snapshots.toNat (2 * log.samples_per_axis.sum).toNat 11
    ∧ log.couch_vrt.expected = specColumn log.snapshot_data log.num_snapshots.toNat (2 * log.samples_per_axis.sum).toNat 12
    ∧ log.couch_vrt.actual = specColumn log.snapshot_data log.num_snapshots.toNat (2 * log.samples_per_axis.sum).toNat 13
    ∧ log.couch_lng.expected = specColumn log.snapshot_data log.num_snapshots.toNat (2 * log.samples_per_axis.sum).toNat 14
    ∧ log.couch_lng.actual = specColumn log.snapshot_data log.num_snapshots.toNat (2 * log.samples_per_axis.sum).toNat 15
    ∧ log.couch_lat.expected = specColumn log.snapshot_data log.num_snapshots.toNat (2 * log.samples_per_axis.sum).toNat 16
    ∧ log.couch_lat.actual = specColumn log.snapshot_data log.num_snapshots.toNat (2 * log.samples_per_axis.sum).toNat 17
    ∧ log.couch_rtn.expected = specColumn log.snapshot_data log.num_snapshots.toNat (2 * log.samples_per_axis.sum).toNat 18
    ∧ log.couch_rtn.actual = specColumn log.snapshot_data log.num_snapshots.toNat (2 * log.samples_per_axis.sum).toNat 19
    ∧ log.mu.expected = specColumn log.snapshot_data log.num_snapshots.toNat (2 * log.samples_per_axis.sum).toNat 20
    ∧ log.mu.actual = specColumn log.snapshot_data log.num_snapshots.toNat (2 * log.samples_per_axis.sum).toNat 21
    ∧ log.beam_hold.expected = specColumn log.snapshot_data log.num_snapshots.toNat (2 * log.samples_per_axis.sum).toNat 22
    ∧ log.beam_hold.actual = specColumn log.snapshot_data log.num_snapshots.toNat (2 * log.samples_per_axis.sum).toNat 23
    ∧ log.control_point.expected = specColumn log.snapshot_data log.num_snapshots.toNat (2 * log.samples_per_axis.sum).toNat 24
    ∧ log.control_point.actual = specColumn log.snapshot_data log.num_snapshots.toNat (2 * log.samples_per_axis.sum).toNat 25
    ∧ log.carraigeA.expected = specColumn log.snapshot_data log.num_snapshots.toNat (2 * log.samples_per_axis.sum).toNat 26
    ∧ log.carraigeA.actual = specColumn log.snapshot_data log.num_snapshots.toNat (2 * log.samples_per_axis.sum).toNat 27
    ∧ log.carriageB.expected = specColumn log.snapshot_data log.num_snapshots.toNat (2 * log.samples_per_axis.sum).toNat 28
    ∧ log.carriageB.actual = specColumn log.snapshot_data log.num_snapshots.toNat (2 * log.samples_per_axis.sum).toNat 29
    ∧ (∀ i : Nat, 1 ≤ i → i ≤ log.num_mlc_leaves.toNat →
        log.mlc[i - 1]? = some ⟨specColumn log.snapshot_data log.num_snapshots.toNat (2 * log.samples_per_axis.sum).toNat (30 + 2 * (i - 1)),
          specColumn log.snapshot_data log.num_snapshots.toNat (2 * log.samples_per_axis.sum).toNat (31 + 2 * (i - 1))⟩) := by
  obtain ⟨-, hlen, -, hax⟩ := decodeTlog_ok_struct fc log h
  obtain ⟨hax0, hax2, hax4, hax6, hax8, hax10, hax12, hax14, hax16, hax18, hax20, hax22, hax24, hax26, hax28, hmlc⟩ := hax hstep
  have hlen2 : log.snapshot_data.length = (2 * log.samples_per_axis.sum).toNat * log.num_snapshots.toNat := by
    rw [hlen, int_toNat_mul _ _ (le_of_lt hstep) hsnap]
  have hk : 0 < (2 * log.samples_per_axis.sum).toNat := by omega
  refine ⟨hlen2, ?_, ?_, ?_, ?_, ?_, ?_, ?_, ?_, ?_, ?_, ?_, ?_, ?_, ?_, ?_, ?_, ?_, ?_, ?_, ?_, ?_, ?_, ?_, ?_, ?_, ?_, ?_, ?_, ?_, ?_, ?_⟩
  · rw [hax0]
    exact pyStridePos_eq_specColumn _ _ _ _ hk hlen2
  · rw [hax0]
    exact pyStridePos_eq_specColumn _ _ _ _ hk hlen2
  · rw [hax2]
    exact pyStridePos_eq_specColumn _ _ _ _ hk hlen2
  · rw [hax2]
    exact pyStridePos_eq_specColumn _ _ _ _ hk hlen2
  · rw [hax4]
    exact pyStridePos_eq_specColumn _ _ _ _ hk hlen2
  · rw [hax4]
    exact pyStridePos_eq_specColumn _ _ _ _ hk hlen2
  · rw [hax6]
    exact pyStridePos_eq_specColumn _ _ _ _ hk hlen2
  · rw [hax6]
    exact pyStridePos_eq_specColumn _ _ _ _ hk hlen2
  · rw [hax8]
    exact pyStridePos_eq_specColumn _ _ _ _ hk hlen2
  · rw [hax8]
    exact pyStridePos_eq_specColumn _ _ _ _ hk hlen2
  · rw [hax10]
    exact pyStridePos_eq_specColumn _ _ _ _ hk hlen2
  · rw [hax10]
    exact pyStridePos_eq_specColumn _ _ _ _ hk hlen2
  · rw [hax12]
    exact pyStridePos_eq_specColumn _ _ _ _ hk hlen2
  · rw [hax12]
    exact pyStridePos_eq_specColumn _ _ _ _ hk hlen2
  · rw [hax14]
    exact pyStridePos_eq_specColumn _ _ _ _ hk hlen2
  · rw [hax14]
    exact pyStridePos_eq_specColumn _ _ _ _ hk hlen2
  · rw [hax16]
    exact pyStridePos_eq_specColumn _ _ _ _ hk hlen2
  · rw [hax16]
    exact pyStridePos_eq_specColumn _ _ _ _ hk hlen2
  · rw [hax18]
    exact pyStridePos_eq_specColumn _ _ _ _ hk hlen2
  · rw [hax18]
    exact pyStridePos_eq_specColumn _ _ _ _ hk hlen2
  · rw [hax20]
    exact pyStridePos_eq_specColumn _ _ _ _ hk hlen2
  · rw [hax20]
    exact pyStridePos_eq_specColumn _ _ _ _ hk hlen2
  · rw [hax22]
    exact pyStridePos_eq_specColumn _ _ _ _ hk hlen2
  · rw [hax22]
    exact pyStridePos_eq_specColumn _ _ _ _ hk hlen2
  · rw [hax24]
    exact pyStridePos_eq_specColumn _ _ _ _ hk hlen2
  · rw [hax24]
    exact pyStridePos_eq_specColumn _ _ _ _ hk hlen2
  · rw [hax26]
    exact pyStridePos_eq_specColumn _ _ _ _ hk hlen2
  · rw [hax26]
    exact pyStridePos_eq_specColumn _ _ _ _ hk hlen2
  · rw [hax28]
    exact pyStridePos_eq_specColumn _ _ _ _ hk hlen2
  · rw [hax28]
    exact pyStridePos_eq_specColumn _ _ _ _ hk hlen2
  · intro i h1 hi
    rw [hmlc, List.getElem?_map, List.getElem?_range (by omega), Option.map_some']
    rw [pyStridePos_eq_specColumn _ _ _ _ hk hlen2,
      pyStridePos_eq_specColumn _ _ _ _ hk hlen2,
      show 30 + 2 * (i - 1) + 1 = 31 + 2 * (i - 1) from by omega]

/-- Witness for `snapshot_partition` on the concrete buffer `bufA`. -/
theorem snapshot_partition_witness :
    decodeTlog bufA = .ok logA ∧ (0 : Int) < 2 * logA.samples_per_axis.sum ∧
    (0 : Int) ≤ logA.num_snapshots ∧
    logA.collimator.expected = specColumn logA.snapshot_data
      logA.num_snapshots.toNat (2 * logA.samples_per_axis.sum).toNat 0 :=
  ⟨decodeTlog_bufA, by decide, by decide,
   (snapshot_partition bufA logA decodeTlog_bufA (by decide) (by decide)).2.1⟩


/-- C2 counterexample: `bufC` decodes successfully with one snapshot, but
its row stride is only 8, so the jaw_x2 columns 10-11 (and the leaf columns
30-31) do not exist inside a row: the jaw_x2 sequences come out empty
instead of having length `num_snapshots = 1`. -/
theorem axis_lengths_counterexample :
    (decodeTlog bufC).map (fun l =>
      (l.num_snapshots, l.jaw_x2.expected.length, l.jaw_x2.actual.length)) =
      .ok (1, 0, 0) ∧ (0 : Nat) ≠ (1 : Int).toNat :=
  ⟨by rfl, by decide⟩

/-- C2 amended: for every successful decode whose header is geometrically
coherent - `num_snapshots ≥ 0` and every documented column fits inside one
row, i.e. `30 + 2 * max(num_mlc_leaves, 0) ≤ row_stride` (true of every
well-formed log of this format, where the row stride is
`32 + 2 * num_mlc_leaves`) - every fixed axis and every MLC leaf entry
satisfies `len(expected) = len(actual) = num_snapshots`. -/
theorem axis_lengths_amended (fc : List Nat) (log : TrajectoryLog)
    (h : decodeTlog fc = .ok log)
    (hsnap : 0 ≤ log.num_snapshots)
    (hfit : 30 + 2 * (log.num_mlc_leaves.toNat : Int) ≤ 2 * log.samples_per_axis.sum) :
    (log.collimator.expected.length = log.num_snapshots.toNat ∧ log.collimator.actual.length = log.num_snapshots.toNat)
    ∧ (log.gantry.expected.length = log.num_snapshots.toNat ∧ log.gantry.actual.length = log.num_snapshots.toNat)
    ∧ (log.jaw_y1.expected.length = log.num_snapshots.toNat ∧ log.jaw_y1.actual.length = log.num_snapshots.toNat)
    ∧ (log.jaw_y2.expected.length = log.num_snapshots.toNat ∧ log.jaw_y2.actual.length = log.num_snapshots.toNat)
    ∧ (log.jaw_x1.expected.length = log.num_snapshots.toNat ∧ log.jaw_x1.actual.length = log.num_snapshots.toNat)
    ∧ (log.jaw_x2.expected.length = log.num_snapshots.toNat ∧ log.jaw_x2.actual.length = log.num_snapshots.toNat)
    ∧ (log.couch_vrt.expected.length = log.num_snapshots.toNat ∧ log.couch_vrt.actual.length = log.num_snapshots.toNat)
    ∧ (log.couch_lng.expected.length = log.num_snapshots.toNat ∧ log.couch_lng.actual.length = log.num_snapshots.toNat)
    ∧ (log.couch_lat.expected.length = log.num_snapshots.toNat ∧ log.couch_lat.actual.length = log.num_snapshots.toNat)
    ∧ (log.couch_rtn.expected.length = log.num_snapshots.toNat ∧ log.couch_rtn.actual.length = log.num_snapshots.toNat)
    ∧ (log.mu.expected.length = log.num_snapshots.toNat ∧ log.mu.actual.length = log.num_snapshots.toNat)
    ∧ (log.beam_hold.expected.length = log.num_snapshots.toNat ∧ log.beam_hold.actual.length = log.num_snapshots.toNat)
    ∧ (log.control_point.expected.length = log.num_snapshots.toNat ∧ log.control_point.actual.length = log.num_snapshots.toNat)
    ∧ (log.carraigeA.expected.length = log.num_snapshots.toNat ∧ log.carraigeA.actual.length = log.num_snapshots.toNat)
    ∧ (log.carriageB.expected.length = log.num_snapshots.toNat ∧ log.carriageB.actual.length = log.num_snapshots.toNat)
    ∧ (∀ ax ∈ log.mlc, ax.expected.length = log.num_snapshots.toNat ∧ ax.actual.length = log.num_snapshots.toNat) := by
  have hstep : 0 < 2 * log.samples_per_axis.sum := by omega
  obtain ⟨-, hlen, -, hax⟩ := decodeTlog_ok_struct fc log h
  obtain ⟨hax0, hax2, hax4, hax6, hax8, hax10, hax12, hax14, hax16, hax18, hax20, hax22, hax24, hax26, hax28, hmlc⟩ := hax hstep
  have hlen2 : log.snapshot_data.length = (2 * log.samples_per_axis.sum).toNat * log.num_snapshots.toNat := by
    rw [hlen, int_toNat_mul _ _ (le_of_lt hstep) hsnap]
  have hfitn : 30 + 2 * log.num_mlc_leaves.toNat ≤ (2 * log.samples_per_axis.sum).toNat := by omega
  refine ⟨?_, ?_, ?_, ?_, ?_, ?_, ?_, ?_, ?_, ?_, ?_, ?_, ?_, ?_, ?_, ?_⟩
  · constructor
    · rw [hax0]
      exact pyStridePos_len_snap _ _ _ _ (by omega) hlen2
    · rw [hax0]
      exact pyStridePos_len_snap _ _ _ _ (by omega) hlen2
  · constructor
    · rw [hax2]
      exact pyStridePos_len_snap _ _ _ _ (by omega) hlen2
    · rw [hax2]
      exact pyStridePos_len_snap _ _ _ _ (by omega) hlen2
  · constructor
    · rw [hax4]
      exact pyStridePos_len_snap _ _ _ _ (by omega) hlen2
    · rw [hax4]
      exact pyStridePos_len_snap _ _ _ _ (by omega) hlen2
  · constructor
    · rw [hax6]
      exact pyStridePos_len_snap _ _ _ _ (by omega) hlen2
    · rw [hax6]
      exact pyStridePos_len_snap _ _ _ _ (by omega) hlen2
  · constructor
    · rw [hax8]
      exact pyStridePos_len_snap _ _ _ _ (by omega) hlen2
    · rw [hax8]
      exact pyStridePos_len_snap _ _ _ _ (by omega) hlen2
  · constructor
    · rw [hax10]
      exact pyStridePos_len_snap _ _ _ _ (by omega) hlen2
    · rw [hax10]
      exact pyStridePos_len_snap _ _ _ _ (by omega) hlen2
  · constructor
    · rw [hax12]
      exact pyStridePos_len_snap _ _ _ _ (by omega) hlen2
    · rw [hax12]
      exact pyStridePos_len_snap _ _ _ _ (by omega) hlen2
  · constructor
    · rw [hax14]
      exact pyStridePos_len_snap _ _ _ _ (by omega) hlen2
    · rw [hax14]
      exact pyStridePos_len_snap _ _ _ _ (by omega) hlen2
  · constructor
    · rw [hax16]
      exact pyStridePos_len_snap _ _ _ _ (by omega) hlen2
    · rw [hax16]
      exact pyStridePos_len_snap _ _ _ _ (by omega) hlen2
  · constructor
    · rw [hax18]
      exact pyStridePos_len_snap _ _ _ _ (by omega) hlen2
    · rw [hax18]
      exact pyStridePos_len_snap _ _ _ _ (by omega) hlen2
  · constructor
    · rw [hax20]
      exact pyStridePos_len_snap _ _ _ _ (by omega) hlen2
    · rw [hax20]
      exact pyStridePos_len_snap _ _ _ _ (by omega) hlen2
  · constructor
    · rw [hax22]
      exact pyStridePos_len_snap _ _ _ _ (by omega) hlen2
    · rw [hax22]
      exact pyStridePos_len_snap _ _ _ _ (by omega) hlen2
  · constructor
    · rw [hax24]
      exact pyStridePos_len_snap _ _ _ _ (by omega) hlen2
    · rw [hax24]
      exact pyStridePos_len_snap _ _ _ _ (by omega) hlen2
  · constructor
    · rw [hax26]
      exact pyStridePos_len_snap _ _ _ _ (by omega) hlen2
    · rw [hax26]
      exact pyStridePos_len_snap _ _ _ _ (by omega) hlen2
  · constructor
    · rw [hax28]
      exact pyStridePos_len_snap _ _ _ _ (by omega) hlen2
    · rw [hax28]
      exact pyStridePos_len_snap _ _ _ _ (by omega) hlen2
  · intro ax hmem
    rw [hmlc] at hmem
    obtain ⟨leaf, hleaf, rfl⟩ := List.mem_map.mp hmem
    have hlf : leaf < log.num_mlc_leaves.toNat := List.mem_range.mp hleaf
    constructor
    · exact pyStridePos_len_snap _ _ _ _ (by omega) hlen2
    · exact pyStridePos_len_snap _ _ _ _ (by omega) hlen2

/-- Witness for `axis_lengths_amended` on the concrete buffer `bufA`. -/
theorem axis_lengths_witness :
    decodeTlog bufA = .ok logA ∧ (0 : Int) ≤ logA.num_snapshots ∧
    30 + 2 * (logA.num_mlc_leaves.toNat : Int) ≤ 2 * logA.samples_per_axis.sum ∧
    logA.collimator.expected.length = logA.num_snapshots.toNat :=
  ⟨decodeTlog_bufA, by decide, by decide,
   (axis_lengths_amended bufA logA decodeTlog_bufA (by decide) (by decide)).1.1⟩
